import Mathlib

/-!
Shallow embedding of the Rust crate must_destroy (src/src/lib.rs).

The crate provides one guard type, MustDestroy<T, Args>, wrapping a value of a
type T implementing the trait Destroy<Args> (one consuming method
destroy(self, args: Args)).  Dropping the guard panics; calling destroy on the
guard extracts the wrapped value without running the guard's drop glue (via
mem::replace plus mem::forget) and forwards to the wrapped value's destroy.

Side effects are modelled as traces: every embedded call returns an Outcome ε,
which records the list of observable effects (of an arbitrary effect type ε)
the call performed, in order, together with the panic message when the call
unwound with a panic.  The wrapped type's Destroy implementation is a
parameter d : T → Args → Outcome ε.
-/

/-- Result of executing one (possibly panicking) call: the observable side
effects it performed, in order, and the panic message when it unwound. -/
structure Outcome (ε : Type) where
  events : List ε
  panicMsg : Option String

/-- Sequencing of two consecutive calls: when the first one panics the second
never runs; otherwise the traces concatenate and the second call decides the
panic outcome. -/
def Outcome.seq {ε : Type} (o₁ o₂ : Outcome ε) : Outcome ε :=
  match o₁.panicMsg with
  | some m => Outcome.mk o₁.events (some m)
  | none => Outcome.mk (o₁.events ++ o₂.events) o₂.panicMsg

/-- The outcome of a call with no observable effect and no panic. -/
def Outcome.pure (ε : Type) : Outcome ε :=
  Outcome.mk [] none

/-- The struct MustDestroy<T: Destroy<Args>, Args> (lib.rs lines 26-29).  It
owns exactly the wrapped value; the PhantomData<Args> field is zero-sized and
is kept here as a Unit field for faithfulness. -/
structure MustDestroy (T : Type) (Args : Type) where
  wrapped : T
  argsMarker : Unit

/-- The message of the panic raised by impl Drop for MustDestroy
(lib.rs line 90). -/
def dropPanicMsg : String := "Can not drop, must call destroy."

/-- Drop glue of the guard, per impl Drop for MustDestroy (lib.rs lines
88-92): whenever a still-live guard is dropped, the drop hook unconditionally
panics with dropPanicMsg, regardless of the guard's contents. -/
def MustDestroy.dropGlue {T Args : Type} (ε : Type) (_g : MustDestroy T Args) :
    Outcome ε :=
  Outcome.mk [] (some dropPanicMsg)

/-- The call std::mem::forget as used by into_inner (lib.rs line 47): it
consumes the guard without running its drop glue; no observable effect and no
panic. -/
def memForget {T Args : Type} (ε : Type) (_g : MustDestroy T Args) : Outcome ε :=
  Outcome.pure ε

/-- The method MustDestroy::new (lib.rs lines 31-38): wraps the item.  A pure
construction with no failure mode and no observable effect. -/
def MustDestroy.new {T Args : Type} (item : T) : MustDestroy T Args :=
  MustDestroy.mk item ()

/-- The method MustDestroy::into_inner (lib.rs lines 41-49): mem::replace moves
the wrapped value out of the struct (writing an unused placeholder in its
place, with no observable effect), then forget(self) consumes the guard so
that its drop glue never runs.  Returns the original wrapped value paired with
the outcome trace of the call itself. -/
def MustDestroy.into_inner {T Args : Type} (ε : Type) (g : MustDestroy T Args) :
    T × Outcome ε :=
  let wrapped := g.wrapped
  (wrapped, memForget ε g)

/-- The trait impl Destroy<Args> for MustDestroy<T, Args> (lib.rs lines
52-56): destroy(self, args) is literally self.into_inner().destroy(args),
where d is the wrapped type T's own Destroy::destroy. -/
def MustDestroy.destroy {T Args : Type} (ε : Type) (d : T → Args → Outcome ε)
    (g : MustDestroy T Args) (args : Args) : Outcome ε :=
  let p := MustDestroy.into_inner ε g
  Outcome.seq p.2 (d p.1 args)

/-- The zero-argument convenience method (lib.rs lines 58-62):
destroy(self) calls Destroy::destroy(self, ()). -/
def MustDestroy.destroy0 {T : Type} (ε : Type) (d : T → Unit → Outcome ε)
    (g : MustDestroy T Unit) : Outcome ε :=
  MustDestroy.destroy ε d g ()

/-- The one-argument convenience method (lib.rs lines 82-86):
destroy(self, arg1) calls Destroy::destroy(self, (arg1,)).  The Rust
one-element tuple (A1,) is modelled as A1 itself. -/
def MustDestroy.destroy1 {A1 T : Type} (ε : Type) (d : T → A1 → Outcome ε)
    (g : MustDestroy T A1) (arg1 : A1) : Outcome ε :=
  MustDestroy.destroy ε d g arg1

/-- The two-argument convenience method (lib.rs lines 76-80):
destroy(self, arg1, arg2) calls Destroy::destroy(self, (arg1, arg2)). -/
def MustDestroy.destroy2 {A1 A2 T : Type} (ε : Type)
    (d : T → A1 × A2 → Outcome ε) (g : MustDestroy T (A1 × A2))
    (arg1 : A1) (arg2 : A2) : Outcome ε :=
  MustDestroy.destroy ε d g (arg1, arg2)

/-- The three-argument convenience method (lib.rs lines 70-74):
destroy(self, arg1, arg2, arg3) calls
Destroy::destroy(self, (arg1, arg2, arg3)). -/
def MustDestroy.destroy3 {A1 A2 A3 T : Type} (ε : Type)
    (d : T → A1 × A2 × A3 → Outcome ε) (g : MustDestroy T (A1 × A2 × A3))
    (arg1 : A1) (arg2 : A2) (arg3 : A3) : Outcome ε :=
  MustDestroy.destroy ε d g (arg1, arg2, arg3)

/-- The four-argument convenience method (lib.rs lines 64-68):
destroy(self, arg1, arg2, arg3, arg4) calls
Destroy::destroy(self, (arg1, arg2, arg3, arg4)). -/
def MustDestroy.destroy4 {A1 A2 A3 A4 T : Type} (ε : Type)
    (d : T → A1 × A2 × A3 × A4 → Outcome ε)
    (g : MustDestroy T (A1 × A2 × A3 × A4))
    (arg1 : A1) (arg2 : A2) (arg3 : A3) (arg4 : A4) : Outcome ε :=
  MustDestroy.destroy ε d g (arg1, arg2, arg3, arg4)

/-- The impl Deref for MustDestroy (lib.rs lines 94-100): a shared borrow of
the guard reads exactly the wrapped field. -/
def MustDestroy.deref {T Args : Type} (g : MustDestroy T Args) : T :=
  g.wrapped

/-- The impl DerefMut for MustDestroy (lib.rs lines 102-106): deref_mut
returns a mutable borrow of the wrapped field, so a mutation f performed
through it updates the wrapped field of the very same guard in place. -/
def MustDestroy.derefMutUpdate {T Args : Type} (g : MustDestroy T Args)
    (f : T → T) : MustDestroy T Args :=
  MustDestroy.mk (f g.wrapped) g.argsMarker

/-- Enumeration of the items declared in src/src/lib.rs, used to record the
crate's visibility (pub) annotations. -/
inductive SurfaceItem where
  | destroyTrait
  | mustDestroyType
  | newFn
  | intoInnerFn
  | destroyTraitImpl
  | destroyArity0
  | destroyArity1
  | destroyArity2
  | destroyArity3
  | destroyArity4
  | dropImpl
  | derefImpl
  | derefMutImpl

/-- Visibility of each item of src/src/lib.rs: true exactly when the item is
reachable from outside the crate.  The trait (line 19), the struct (line 26),
new (line 33) and into_inner (line 41) are declared pub; trait-impl methods
(Destroy, Drop, Deref, DerefMut) are reachable because their traits and the
struct are public.  The five positional destroy convenience methods (lines
58-86) are declared fn without pub, hence crate-private. -/
def isPub : SurfaceItem → Bool
  | SurfaceItem.destroyTrait => true
  | SurfaceItem.mustDestroyType => true
  | SurfaceItem.newFn => true
  | SurfaceItem.intoInnerFn => true
  | SurfaceItem.destroyTraitImpl => true
  | SurfaceItem.destroyArity0 => false
  | SurfaceItem.destroyArity1 => false
  | SurfaceItem.destroyArity2 => false
  | SurfaceItem.destroyArity3 => false
  | SurfaceItem.destroyArity4 => false
  | SurfaceItem.dropImpl => true
  | SurfaceItem.derefImpl => true
  | SurfaceItem.derefMutImpl => true

/-- The five positional destroy convenience methods of lib.rs lines 58-86. -/
def positionalArityItems : List SurfaceItem :=
  [SurfaceItem.destroyArity0, SurfaceItem.destroyArity1,
   SurfaceItem.destroyArity2, SurfaceItem.destroyArity3,
   SurfaceItem.destroyArity4]

/-- A fixed panic message used to exercise propagation of an inner failure. -/
def boomMsg : String := "boom"

/-- C1: for every guard that is dropped while still live (destroy and
into_inner both consume the guard, so a dropped guard is one on which neither
was called), the drop glue raises the fatal contract-violation panic with the
fixed message, performs no other observable effect, and does so
deterministically: the outcome is the same for every guard every time. -/
theorem c1_drop_always_panics {T Args : Type} (ε : Type) (g : MustDestroy T Args) :
    (MustDestroy.dropGlue ε g).panicMsg = some dropPanicMsg ∧
    (MustDestroy.dropGlue ε g).events = [] ∧
    ∀ g' : MustDestroy T Args, MustDestroy.dropGlue ε g = MustDestroy.dropGlue ε g' :=
  ⟨rfl, rfl, fun _ => rfl⟩

/-- C2: wrapping v with MustDestroy::new and then calling destroy(args) on
the guard has exactly the same outcome (effects and panic behaviour) as
calling v's own destroy(args) directly; moreover, instrumenting the wrapped
destroy to log its argument shows it is invoked exactly once with exactly
args. -/
theorem c2_new_then_destroy_eq_direct {T Args : Type} (ε : Type)
    (d : T → Args → Outcome ε) (v : T) (args : Args) :
    MustDestroy.destroy ε d (MustDestroy.new v) args = d v args ∧
    (MustDestroy.destroy Args (fun _ a => Outcome.mk [a] none)
      (MustDestroy.new v) args).events = [args] :=
  ⟨rfl, rfl⟩

/-- C3: into_inner returns exactly the wrapped value, and the call itself
raises no panic (in particular not the drop-enforcement panic) and performs
no observable effect: the guard's drop glue never runs during or after
into_inner, because forget(self) consumes the guard. -/
theorem c3_into_inner_no_drop_panic {T Args : Type} (ε : Type)
    (g : MustDestroy T Args) :
    (MustDestroy.into_inner ε g).1 = g.wrapped ∧
    (MustDestroy.into_inner ε g).2.panicMsg = none ∧
    (MustDestroy.into_inner ε g).2.events = [] :=
  ⟨rfl, rfl, rfl⟩

/-- C4: calling into_inner() and then calling destroy(args) on the returned
value (sequencing the two calls' outcomes) has exactly the same outcome as
calling destroy(args) on the original guard directly. -/
theorem c4_into_inner_then_destroy_eq_guard_destroy {T Args : Type} (ε : Type)
    (d : T → Args → Outcome ε) (g : MustDestroy T Args) (args : Args) :
    Outcome.seq (MustDestroy.into_inner ε g).2
        (d (MustDestroy.into_inner ε g).1 args) =
      MustDestroy.destroy ε d g args :=
  rfl

/-- C5: each positional convenience call destroy(a1, ..., an), for n = 0..4,
has exactly the same outcome as the structured trait call
Destroy::destroy(guard, (a1, ..., an)) (with the Rust one-tuple (a1,)
modelled as a1 itself). -/
theorem c5_positional_eq_structured (ε : Type) :
    (∀ (T : Type) (d : T → Unit → Outcome ε) (g : MustDestroy T Unit),
        MustDestroy.destroy0 ε d g = MustDestroy.destroy ε d g ()) ∧
    (∀ (A1 T : Type) (d : T → A1 → Outcome ε) (g : MustDestroy T A1) (a1 : A1),
        MustDestroy.destroy1 ε d g a1 = MustDestroy.destroy ε d g a1) ∧
    (∀ (A1 A2 T : Type) (d : T → A1 × A2 → Outcome ε)
        (g : MustDestroy T (A1 × A2)) (a1 : A1) (a2 : A2),
        MustDestroy.destroy2 ε d g a1 a2 = MustDestroy.destroy ε d g (a1, a2)) ∧
    (∀ (A1 A2 A3 T : Type) (d : T → A1 × A2 × A3 → Outcome ε)
        (g : MustDestroy T (A1 × A2 × A3)) (a1 : A1) (a2 : A2) (a3 : A3),
        MustDestroy.destroy3 ε d g a1 a2 a3 =
          MustDestroy.destroy ε d g (a1, a2, a3)) ∧
    (∀ (A1 A2 A3 A4 T : Type) (d : T → A1 × A2 × A3 × A4 → Outcome ε)
        (g : MustDestroy T (A1 × A2 × A3 × A4))
        (a1 : A1) (a2 : A2) (a3 : A3) (a4 : A4),
        MustDestroy.destroy4 ε d g a1 a2 a3 a4 =
          MustDestroy.destroy ε d g (a1, a2, a3, a4)) :=
  ⟨fun _ _ _ => rfl, fun _ _ _ _ _ => rfl, fun _ _ _ _ _ _ _ => rfl,
   fun _ _ _ _ _ _ _ _ _ => rfl, fun _ _ _ _ _ _ _ _ _ _ _ => rfl⟩

/-- C6: the extraction step inside the guard's destroy is side-effect-free
with respect to ordinary disposal (the into_inner call produces the pure
outcome: no drop hook of the guard and no disposal of the wrapped value
runs), the guard's destroy outcome is exactly one run of the wrapped value's
destroy, and instrumenting the wrapped destroy to log each invocation shows
it runs exactly once. -/
theorem c6_destroy_invokes_inner_once {T Args : Type} (ε : Type)
    (d : T → Args → Outcome ε) (g : MustDestroy T Args) (args : Args) :
    (MustDestroy.into_inner ε g).2 = Outcome.pure ε ∧
    MustDestroy.destroy ε d g args = d g.wrapped args ∧
    (MustDestroy.destroy Args (fun _ a => Outcome.mk [a] none) g args).events =
      [args] :=
  ⟨rfl, rfl, rfl⟩

/-- C7: transparent access goes to the exact same underlying value later
consumed: a read through Deref sees the value into_inner returns, a mutation
f performed through DerefMut is seen by a subsequent Deref read, by
into_inner, and by the value the guard's destroy passes to the wrapped
destroy: no copying divergence. -/
theorem c7_transparent_access_same_value {T Args : Type} (ε : Type)
    (d : T → Args → Outcome ε) (g : MustDestroy T Args) (f : T → T)
    (args : Args) :
    MustDestroy.deref g = (MustDestroy.into_inner ε g).1 ∧
    MustDestroy.deref (MustDestroy.derefMutUpdate g f) =
      f (MustDestroy.deref g) ∧
    (MustDestroy.into_inner ε (MustDestroy.derefMutUpdate g f)).1 =
      f g.wrapped ∧
    MustDestroy.destroy ε d (MustDestroy.derefMutUpdate g f) args =
      d (f g.wrapped) args :=
  ⟨rfl, rfl, rfl, rfl⟩

/-- C8: when the wrapped value's own destroy panics with message m during the
guard's destroy call, the guard's destroy call panics with exactly m, with
the inner call's effects unchanged, and the guard's own drop-enforcement
panic is not additionally raised (the guard was already discharged by
into_inner before the inner destroy ran). -/
theorem c8_inner_failure_propagates {T Args : Type} (ε : Type)
    (d : T → Args → Outcome ε) (g : MustDestroy T Args) (args : Args)
    (m : String) (h : (d g.wrapped args).panicMsg = some m) :
    (MustDestroy.destroy ε d g args).panicMsg = some m ∧
    (MustDestroy.destroy ε d g args).events = (d g.wrapped args).events ∧
    (m ≠ dropPanicMsg →
      (MustDestroy.destroy ε d g args).panicMsg ≠ some dropPanicMsg) := by
  refine ⟨h, rfl, ?_⟩
  intro hne hc
  exact hne (Option.some_inj.mp ((h.symm.trans hc :
    (some m : Option String) = some dropPanicMsg)))

/-- Witness for C8 at a concrete input: the wrapped destroy that immediately
panics with boomMsg satisfies the hypothesis, and the guard's destroy then
panics with boomMsg. -/
theorem c8_witness :
    ((fun (_ : Unit) (_ : Unit) => Outcome.mk ([] : List Nat) (some boomMsg))
        (MustDestroy.new () : MustDestroy Unit Unit).wrapped ()).panicMsg =
      some boomMsg ∧
    (MustDestroy.destroy Nat
        (fun (_ : Unit) (_ : Unit) => Outcome.mk [] (some boomMsg))
        (MustDestroy.new ()) ()).panicMsg = some boomMsg :=
  ⟨rfl,
   (c8_inner_failure_propagates Nat
      (fun _ _ => Outcome.mk [] (some boomMsg))
      (MustDestroy.new ()) () boomMsg rfl).1⟩

/-- C9 counterexample: the claim that an external user can invoke the
positional destroy convenience form for each arity 0 through 4 is false: in
src/src/lib.rs every one of the five positional arity methods is declared
without pub, so none of them is externally visible. -/
theorem c9_counterexample :
    isPub SurfaceItem.destroyArity0 = false ∧
    isPub SurfaceItem.destroyArity1 = false ∧
    isPub SurfaceItem.destroyArity2 = false ∧
    isPub SurfaceItem.destroyArity3 = false ∧
    isPub SurfaceItem.destroyArity4 = false := by
  decide

/-- C9 amended: the structured single-argument destroy is externally
invocable through the public Destroy trait, while the positional 0-4
argument convenience methods exist in the crate but are crate-private (not
pub), hence invocable only from inside the crate, not by an external user. -/
theorem c9_amended_surface :
    isPub SurfaceItem.destroyTrait = true ∧
    isPub SurfaceItem.destroyTraitImpl = true ∧
    positionalArityItems.all (fun i => !(isPub i)) = true := by
  decide

/-- C10: construction followed by extraction is the identity on the wrapped
value: into_inner applied to new(v) returns exactly v, with the pure outcome
(no observable side effect and no panic from either operation). -/
theorem c10_into_inner_new_identity {T Args : Type} (ε : Type) (v : T) :
    MustDestroy.into_inner ε (MustDestroy.new v : MustDestroy T Args) =
      (v, Outcome.pure ε) :=
  rfl
